import Mathlib

/-!
Shallow embedding of the selection / dedup / delivery core of the
jinji_runch_bot repository (src/kakao_scraper.py, src/runner.py,
src/telegram_sender.py), together with theorems settling the claims
C1..C10 about it.

Python strings are modelled as Lean `String` (lists of unicode scalar
values); Python `str.strip()` is modelled by `pyStrip` (dropping
whitespace on both ends), `in` (substring test) by `strContains`,
`str.lower()` by `pyLower`.  Machine-level details that the source
delegates to the standard library (urljoin, hashlib.sha256) are modelled
by executable Lean functions: sha256 is implemented in full (FIPS 180-4)
over UTF-8 bytes so that dedupe keys are concrete strings.
-/

set_option maxRecDepth 4000

/-- Whitespace predicate used to model Python `str.strip()`. -/
def pyWS (c : Char) : Bool := c.isWhitespace

/-- Model of `str.strip()` on a list of characters: drop whitespace at both ends. -/
def pyStripL (l : List Char) : List Char :=
  ((l.dropWhile pyWS).reverse.dropWhile pyWS).reverse

/-- Model of Python `str.strip()`. -/
def pyStrip (s : String) : String := ⟨pyStripL s.data⟩

/-- Model of Python `str.lower()` (ASCII case folding). -/
def pyLower (s : String) : String := ⟨s.data.map Char.toLower⟩

/-- Substring test on character lists: `containsSub pat l` models
Python `pat in l`. -/
def containsSub (pat : List Char) : List Char → Bool
  | [] => pat.isEmpty
  | c :: cs => pat.isPrefixOf (c :: cs) || containsSub pat cs

/-- Model of Python `pat in s` for strings. -/
def strContains (s pat : String) : Bool := containsSub pat.data s.data

/-- Model of `urllib.parse.urljoin` restricted to the shapes this
repository produces: an href that already carries a scheme is kept,
any other href is resolved against the base. -/
def urljoin (base url : String) : String :=
  if containsSub "://".data url.data then url else base ++ url

/-! ### Label classifier (src/kakao_scraper.py, `_is_today_label`) -/

/-- The first rule of `_is_today_label`:
`"분 전" in t or "시간 전" in t or t in ("방금",)`. -/
def relativeMarker (t : List Char) : Bool :=
  containsSub "분 전".data t || containsSub "시간 전".data t || t == "방금".data

/-- Positional model of `re.match(r"(\d{4})\.(\d{2})\.(\d{2})\.", t)`:
the first eleven characters must be four digits, a dot, two digits, a
dot, two digits, a dot (a prefix match — trailing characters allowed). -/
def matchesAbsDate (l : List Char) : Bool :=
  decide (11 ≤ l.length) &&
  (l.getD 0 '*').isDigit && (l.getD 1 '*').isDigit &&
  (l.getD 2 '*').isDigit && (l.getD 3 '*').isDigit &&
  (l.getD 4 '*' == '.') &&
  (l.getD 5 '*').isDigit && (l.getD 6 '*').isDigit &&
  (l.getD 7 '*' == '.') &&
  (l.getD 8 '*').isDigit && (l.getD 9 '*').isDigit &&
  (l.getD 10 '*' == '.')

/-- Numeric value of a digit character. -/
def digitVal (c : Char) : Nat := c.toNat - 48

/-- The (year, month, day) triple captured by the three regex groups. -/
def absTriple (l : List Char) : Nat × Nat × Nat :=
  (digitVal (l.getD 0 '*') * 1000 + digitVal (l.getD 1 '*') * 100 +
     digitVal (l.getD 2 '*') * 10 + digitVal (l.getD 3 '*'),
   digitVal (l.getD 5 '*') * 10 + digitVal (l.getD 6 '*'),
   digitVal (l.getD 8 '*') * 10 + digitVal (l.getD 9 '*'))

/-- Definition `_is_today_label` from src/kakao_scraper.py.  The reference calendar
date `(now.year, now.month, now.day)` that the source reads from
`datetime.now(KST)` is passed explicitly as `ref`. -/
def _is_today_label (ref : Nat × Nat × Nat) (text : String) : Bool :=
  let t : List Char := pyStripL text.data
  if relativeMarker t then true
  else if matchesAbsDate t then absTriple t == ref
  else false

example : _is_today_label (2026, 1, 2) "5분 전" = true := by decide
example : _is_today_label (2026, 1, 2) "2시간 전" = true := by decide
example : _is_today_label (2026, 1, 2) "방금" = true := by decide
example : _is_today_label (2026, 1, 2) "오늘" = false := by decide
example : _is_today_label (2026, 1, 2) "3일 전" = false := by decide
example : _is_today_label (2026, 1, 2) "2026.01.02." = true := by decide
example : _is_today_label (2026, 1, 3) "2026.01.02." = false := by decide
example : _is_today_label (2026, 1, 2) "" = false := by decide

/-! ### Card selector (src/kakao_scraper.py, `pick_best_post_link`) -/

/-- One feed card as rendered in the channel's post listing.
`href` is the resolved link attribute (`none` when the card has no
`a.link_title`/`a.link_board` element or the element has no href —
the loop `continue`s in both cases); `dateLabel` is the inner text of
`.item_date .txt_date` when that node exists; `pinText` is the inner
text of `.icon_pin` when that node exists. -/
structure Card where
  href : Option String
  dateLabel : Option String
  pinText : Option String

/-- Value `date_text` as computed in the loop body: the stripped inner text
of the date node, `""` when the node is absent. -/
def cardDateText (c : Card) : String := pyStrip (c.dateLabel.getD "")

/-- Value `pinned` as computed in the loop body: the pin node exists and its
stripped text contains "고정". -/
def cardPinned (c : Card) : Bool :=
  match c.pinText with
  | some s => strContains (pyStrip s) "고정"
  | none => false

/-- The single pass of `pick_best_post_link` collecting
`candidates_today`, `candidates_pinned`, `candidates_any` in encounter
order.  A card whose `href` is `none` is skipped (`continue`). -/
def collectBuckets (ref : Nat × Nat × Nat) (base : String) :
    List Card → List String × List String × List String
  | [] => ([], [], [])
  | card :: rest =>
    match card.href with
    | none => collectBuckets ref base rest
    | some href =>
      let abs_url := urljoin base href
      let (ts, ps, anys) := collectBuckets ref base rest
      (if _is_today_label ref (cardDateText card) then abs_url :: ts else ts,
       if cardPinned card then abs_url :: ps else ps,
       abs_url :: anys)

/-- Definition `pick_best_post_link` from src/kakao_scraper.py: collect the three
candidate buckets in one pass, then pick by priority
today > pinned > any, with the reasons `"today"`, `"pinned"`,
`"latest"`, and `(none, "none")` when every bucket is empty. -/
def pick_best_post_link (ref : Nat × Nat × Nat) (base : String)
    (cards : List Card) : Option String × String :=
  let (ts, ps, anys) := collectBuckets ref base cards
  match ts with
  | l :: _ => (some l, "today")
  | [] =>
    match ps with
    | l :: _ => (some l, "pinned")
    | [] =>
      match anys with
      | l :: _ => (some l, "latest")
      | [] => (none, "none")

example :
    pick_best_post_link (2026, 1, 2) "https://pf.kakao.com"
      [⟨some "/p/1", some "방금", none⟩,
       ⟨some "/p/2", some "3일 전", some "고정"⟩] =
    (some "https://pf.kakao.com/p/1", "today") := by decide

example :
    pick_best_post_link (2026, 1, 2) "https://pf.kakao.com"
      [⟨some "/p/1", none, some "고정"⟩, ⟨some "/p/2", none, none⟩] =
    (some "https://pf.kakao.com/p/1", "pinned") := by decide

example :
    pick_best_post_link (2026, 1, 2) "https://pf.kakao.com"
      [⟨none, some "방금", none⟩] = (none, "none") := by decide

/-! ### Detail extraction and scraping (src/kakao_scraper.py) -/

/-- The dictionary returned by `_extract_detail_only` (the detail-page
parse is browser work; it is an oracle argument below). -/
structure DetailData where
  title : String
  text : String
  image_urls : List String

/-- The dictionary returned by `scrape_today_post`. -/
structure ScrapeResult where
  url : String
  title : String
  text : String
  image_urls : List String
  downloaded : List String
deriving DecidableEq

/-- The message of the `RuntimeError` raised when no link is found. -/
def scrapeErrMsg : String :=
  "포스트 링크를 하나도 찾지 못했습니다. (로그인/차단/DOM 변경 가능)"

/-- Definition `scrape_today_post` from src/kakao_scraper.py.  The browser
navigation is abstracted away: `cards` is the card list the browser
renders, `extract` models `_extract_detail_only` on the chosen detail
page, and `download` models `_download_images` (network downloads,
best effort).  When `pick_best_post_link` returns no link the source
raises `RuntimeError`, modelled as `Except.error`. -/
def scrape_today_post (ref : Nat × Nat × Nat) (cards : List Card)
    (extract : String → DetailData)
    (download : List String → List String) : Except String ScrapeResult :=
  let base_url := "https://pf.kakao.com"
  match pick_best_post_link ref base_url cards with
  | (none, _) => .error scrapeErrMsg
  | (some best_link, _reason) =>
    let detail_data := extract best_link
    let img_urls := detail_data.image_urls
    let downloaded := download img_urls
    .ok ⟨best_link, detail_data.title, detail_data.text, img_urls, downloaded⟩

/-! ### SHA-256 (model of `hashlib.sha256(...).hexdigest()`)

A full executable FIPS 180-4 SHA-256 over byte lists, with 32-bit words
represented as `Nat` reduced mod 2^32. -/

/-- Reduce to a 32-bit word. -/
def w32 (x : Nat) : Nat := x % 4294967296

/-- Right rotation of a 32-bit word. -/
def rotr32 (n x : Nat) : Nat := w32 ((x >>> n) ||| (x <<< (32 - n)))

def shaCh (x y z : Nat) : Nat := (x &&& y) ^^^ ((4294967295 ^^^ x) &&& z)

def shaMaj (x y z : Nat) : Nat := (x &&& y) ^^^ (x &&& z) ^^^ (y &&& z)

def bigSigma0 (x : Nat) : Nat := rotr32 2 x ^^^ rotr32 13 x ^^^ rotr32 22 x

def bigSigma1 (x : Nat) : Nat := rotr32 6 x ^^^ rotr32 11 x ^^^ rotr32 25 x

def smallSigma0 (x : Nat) : Nat := rotr32 7 x ^^^ rotr32 18 x ^^^ (x >>> 3)

def smallSigma1 (x : Nat) : Nat := rotr32 17 x ^^^ rotr32 19 x ^^^ (x >>> 10)

/-- The 64 SHA-256 round constants. -/
def shaK : List Nat :=
  [1116352408, 1899447441, 3049323471, 3921009573, 961987163, 1508970993,
   2453635748, 2870763221, 3624381080, 310598401, 607225278, 1426881987,
   1925078388, 2162078206, 2614888103, 3248222580, 3835390401, 4022224774,
   264347078, 604807628, 770255983, 1249150122, 1555081692, 1996064986,
   2554220882, 2821834349, 2952996808, 3210313671, 3336571891, 3584528711,
   113926993, 338241895, 666307205, 773529912, 1294757372, 1396182291,
   1695183700, 1986661051, 2177026350, 2456956037, 2730485921, 2820302411,
   3259730800, 3345764771, 3516065817, 3600352804, 4094571909, 275423344,
   430227734, 506948616, 659060556, 883997877, 958139571, 1322822218,
   1537002063, 1747873779, 1955562222, 2024104815, 2227730452, 2361852424,
   2428436474, 2756734187, 3204031479, 3329325298]

/-- The initial SHA-256 hash value. -/
def shaH0 : List Nat :=
  [1779033703, 3144134277, 1013904242, 2773480762, 1359893119, 2600822924,
   528734635, 1541459225]

/-- One message-schedule extension step: append
`σ1(w[n-2]) + w[n-7] + σ0(w[n-15]) + w[n-16]  (mod 2^32)`. -/
def extendStep (w : List Nat) : List Nat :=
  let n := w.length
  w ++ [w32 (smallSigma1 (w.getD (n - 2) 0) + w.getD (n - 7) 0 +
             smallSigma0 (w.getD (n - 15) 0) + w.getD (n - 16) 0)]

def iterN (f : List Nat → List Nat) : Nat → List Nat → List Nat
  | 0, w => w
  | n + 1, w => iterN f n (f w)

/-- Expand a 16-word block into the 64-word message schedule. -/
def msgSchedule (block : List Nat) : List Nat := iterN extendStep 48 block

/-- One compression round on the working state (a, b, c, d, e, f, g, h). -/
def shaRound (st : Nat × Nat × Nat × Nat × Nat × Nat × Nat × Nat)
    (wk : Nat × Nat) : Nat × Nat × Nat × Nat × Nat × Nat × Nat × Nat :=
  let (a, b, c, d, e, f, g, h) := st
  let (wt, kt) := wk
  let t1 := w32 (h + bigSigma1 e + shaCh e f g + kt + wt)
  let t2 := w32 (bigSigma0 a + shaMaj a b c)
  (w32 (t1 + t2), a, b, c, w32 (d + t1), e, f, g)

/-- Compress one 16-word block into the running 8-word hash. -/
def compressBlock (hv : List Nat) (block : List Nat) : List Nat :=
  match hv with
  | [h0, h1, h2, h3, h4, h5, h6, h7] =>
    let w := msgSchedule block
    let (a, b, c, d, e, f, g, h) :=
      (List.zip w shaK).foldl shaRound (h0, h1, h2, h3, h4, h5, h6, h7)
    [w32 (h0 + a), w32 (h1 + b), w32 (h2 + c), w32 (h3 + d),
     w32 (h4 + e), w32 (h5 + f), w32 (h6 + g), w32 (h7 + h)]
  | _ => hv

/-- Big-endian 8-byte encoding of the bit length. -/
def be64 (n : Nat) : List Nat :=
  [(n >>> 56) % 256, (n >>> 48) % 256, (n >>> 40) % 256, (n >>> 32) % 256,
   (n >>> 24) % 256, (n >>> 16) % 256, (n >>> 8) % 256, n % 256]

/-- SHA-256 padding: append 0x80, zeros to 56 mod 64, then the 64-bit
big-endian message bit length. -/
def padBytes (msg : List Nat) : List Nat :=
  let L := msg.length
  let z := (119 - L % 64) % 64
  msg ++ [128] ++ List.replicate z 0 ++ be64 (8 * L)

/-- Pack bytes (big-endian) into 32-bit words. -/
def bytesToWords : List Nat → List Nat
  | b0 :: b1 :: b2 :: b3 :: rest =>
    (b0 * 16777216 + b1 * 65536 + b2 * 256 + b3) :: bytesToWords rest
  | _ => []

/-- Split a word list into 16-word blocks (structural recursion so the
kernel can evaluate it; padded input is always a multiple of 16 words,
so the leftover case never fires on real messages). -/
def wordBlocks : List Nat → List (List Nat)
  | [] => []
  | w0 :: w1 :: w2 :: w3 :: w4 :: w5 :: w6 :: w7 ::
    w8 :: w9 :: w10 :: w11 :: w12 :: w13 :: w14 :: w15 :: rest =>
    [w0, w1, w2, w3, w4, w5, w6, w7, w8, w9, w10, w11, w12, w13, w14, w15] ::
      wordBlocks rest
  | l => [l]

def hexChar (n : Nat) : Char :=
  if n < 10 then Char.ofNat (48 + n) else Char.ofNat (87 + n)

/-- Lowercase hex of one 32-bit word (8 nibbles). -/
def wordHex (w : Nat) : List Char :=
  [hexChar ((w >>> 28) % 16), hexChar ((w >>> 24) % 16),
   hexChar ((w >>> 20) % 16), hexChar ((w >>> 16) % 16),
   hexChar ((w >>> 12) % 16), hexChar ((w >>> 8) % 16),
   hexChar ((w >>> 4) % 16), hexChar (w % 16)]

/-- Model of `hashlib.sha256(bytes).hexdigest()`. -/
def sha256hexBytes (msg : List Nat) : String :=
  let hv := (wordBlocks (bytesToWords (padBytes msg))).foldl compressBlock shaH0
  ⟨(hv.map wordHex).flatten⟩

/-- UTF-8 encoding of one unicode scalar value. -/
def utf8Char (c : Char) : List Nat :=
  let n := c.toNat
  if n < 128 then [n]
  else if n < 2048 then [192 + n / 64, 128 + n % 64]
  else if n < 65536 then
    [224 + n / 4096, 128 + (n / 64) % 64, 128 + n % 64]
  else
    [240 + n / 262144, 128 + (n / 4096) % 64, 128 + (n / 64) % 64,
     128 + n % 64]

/-- Model of `s.encode("utf-8")`. -/
def utf8Bytes (s : String) : List Nat := (s.data.map utf8Char).flatten

/-- Model of `hashlib.sha256(s.encode("utf-8")).hexdigest()`. -/
def sha256hex (s : String) : String := sha256hexBytes (utf8Bytes s)

/-! ### Dedup state (src/runner.py) -/

/-- The dictionary `_load_state` hands to `_already_sent_today`: the
values of the `"date"` and `"dedupe_key"` entries read with `.get`
(`none` models an absent entry; a present non-string value compares
unequal to every string just like a wrong string, so `Option String`
suffices). -/
structure StoredState where
  date : Option String
  dedupe_key : Option String
deriving DecidableEq

/-- What the persisted state file `.state/sent.json` can hold:
missing file, content `json.loads` rejects, content parsing to a JSON
value that is not an object (list / number / string / null), or a JSON
object. -/
inductive StateFile where
  | absent
  | malformed
  | nonDict
  | dict (st : StoredState)
deriving DecidableEq

/-- What `_load_state()` returns: the parsed JSON value.  A missing
file or a parse failure yields the empty dict `{}`; note that valid
JSON that is not an object is returned as is. -/
inductive LoadedVal where
  | dictVal (st : StoredState)
  | nonDictVal
deriving DecidableEq

/-- Definition `_load_state` from src/runner.py. -/
def _load_state : StateFile → LoadedVal
  | .absent => .dictVal ⟨none, none⟩
  | .malformed => .dictVal ⟨none, none⟩
  | .nonDict => .nonDictVal
  | .dict st => .dictVal st

/-- The exception text of the attribute error raised when `.get` is
called on a non-dict value. -/
def attrErrMsg : String := "AttributeError: object has no attribute get"

/-- Definition `_already_sent_today` from src/runner.py:
`st.get("date") == _today_kst() and st.get("dedupe_key") == dedupe_key`.
The KST date string `_today_kst()` is passed explicitly as `today`.
Calling `.get` on a loaded value that is not a dict raises
`AttributeError`, modelled as `Except.error`. -/
def _already_sent_today (f : StateFile) (today dedupe_key : String) :
    Except String Bool :=
  match _load_state f with
  | .dictVal st => .ok (st.date == some today && st.dedupe_key == some dedupe_key)
  | .nonDictVal => .error attrErrMsg

/-- Definition `_mark_sent_today` from src/runner.py: the dict passed to
`_save_state`, which replaces the whole persisted state. -/
def _mark_sent_today (today dedupe_key : String) : StoredState :=
  ⟨some today, some dedupe_key⟩

/-! ### Dedupe key and message composer (src/runner.py) -/

/-- Definition `_make_dedupe_key` from src/runner.py: prefer the stripped URL as
`url:<url>`; otherwise hash the stripped title and text joined by a
newline (the joined string is stripped again) and keep the first 16
hex characters, as `hash:<digest>`. -/
def _make_dedupe_key (result : ScrapeResult) : String :=
  let url := pyStrip result.url
  if url ≠ "" then "url:" ++ url
  else
    let title := pyStrip result.title
    let text := pyStrip result.text
    let raw := pyStrip (title ++ "\n" ++ text)
    let digest : List Char := (sha256hex raw).data.take 16
    "hash:" ++ ⟨digest⟩

/-- Definition `build_message` from src/runner.py. -/
def build_message (result : ScrapeResult) : String :=
  let title := pyStrip result.title
  let text := pyStrip result.text
  let url := pyStrip result.url
  let msg := pyStrip ("📌 " ++ title)
  let msg := if text ≠ "" then msg ++ "\n\n" ++ text else msg
  let msg := if url ≠ "" then msg ++ "\n\n🔗 " ++ url else msg
  msg

example :
    build_message ⟨".../p/1", "T", "", [], []⟩ = "📌 T\n\n🔗 .../p/1" := by
  decide

/-! ### The run (src/runner.py, `main_async`) -/

/-- The wall clock `datetime.now(KST)` at the start of the run. -/
structure NowKST where
  year : Nat
  month : Nat
  day : Nat
  hour : Nat
  minute : Nat
deriving DecidableEq

def natDigitChar (n : Nat) : Char := Char.ofNat (48 + n % 10)

def natDigitsAux : Nat → Nat → List Char
  | 0, _ => []
  | fuel + 1, n =>
    if n < 10 then [natDigitChar n]
    else natDigitsAux fuel (n / 10) ++ [natDigitChar (n % 10)]

/-- Decimal rendering of a natural number. -/
def natToStr (n : Nat) : String := ⟨natDigitsAux (n + 1) n⟩

/-- Zero-padding to `w` digits, as `date.isoformat()` pads fields. -/
def padNat (w n : Nat) : String :=
  ⟨List.replicate (w - (natToStr n).data.length) '0'⟩ ++ natToStr n

/-- Definition `_today_kst()` from src/runner.py:
`datetime.now(KST).date().isoformat()`. -/
def _today_kst (now : NowKST) : String :=
  padNat 4 now.year ++ "-" ++ padNat 2 now.month ++ "-" ++ padNat 2 now.day

example : _today_kst ⟨2026, 1, 2, 9, 30⟩ = "2026-01-02" := by decide

/-- Success/failure of the external Telegram HTTP calls:
`textOk` is whether `send_text` succeeds (`raise_for_status`), and
`mediaOk i` whether the `i`-th `send_media_group` call succeeds. -/
structure Delivery where
  textOk : Bool
  mediaOk : Nat → Bool

/-- Model of the `imgs[i:i+10]` chunking of the image loop
`for i in range(0, len(imgs), 10)` (structural, last chunk partial). -/
def chunked : List String → List (List String)
  | [] => []
  | x0 :: x1 :: x2 :: x3 :: x4 :: x5 :: x6 :: x7 :: x8 :: x9 :: rest =>
    [x0, x1, x2, x3, x4, x5, x6, x7, x8, x9] :: chunked rest
  | l => [l]

/-- Whether every `send_media_group` call of the loop succeeds
(the source raises at the first failing batch; only success of the
whole loop is observable in the final state). -/
def sendBatches (d : Delivery) : List (List String) → Nat → Bool
  | [], _ => true
  | _batch :: rest, i => d.mediaOk i && sendBatches d rest (i + 1)

/-- How one invocation of `main_async` ends: the early time skip, the
dedup skip, an uncaught exception (`RuntimeError` from the scraper,
`AttributeError` from the dedup read, or an HTTP error from the
sender), or a completed send. -/
inductive RunOutcome where
  | lateSkip
  | dedupSkip
  | raised (msg : String)
  | sent
deriving DecidableEq

/-- Definition `main_async` from src/runner.py as a function of the run's inputs:
the KST clock, the `MODE` environment variable, the rendered feed
cards, the detail-extraction and image-download oracles, the Telegram
delivery outcomes, and the persisted state file.  Returns the run
outcome and the state file after the run.  The guard
`(now.hour, now.minute) >= (11, 45)` is Python tuple comparison. -/
def main_async (now : NowKST) (envMode : Option String) (cards : List Card)
    (extract : String → DetailData) (download : List String → List String)
    (delivery : Delivery) (stateFile : StateFile) : RunOutcome × StateFile :=
  if 11 < now.hour ∨ (now.hour = 11 ∧ 45 ≤ now.minute) then
    (.lateSkip, stateFile)
  else
    let mode := pyLower (pyStrip (envMode.getD "full"))
    match scrape_today_post (now.year, now.month, now.day) cards
        extract download with
    | .error e => (.raised e, stateFile)
    | .ok result =>
      let dedupe_key := _make_dedupe_key result
      match _already_sent_today stateFile (_today_kst now) dedupe_key with
      | .error e => (.raised e, stateFile)
      | .ok true => (.dedupSkip, stateFile)
      | .ok false =>
        let _msg := build_message result
        let imgs := result.downloaded
        if (mode == "full" || mode == "text") && !delivery.textOk then
          (.raised "HTTPError: sendMessage", stateFile)
        else if (mode == "full" || mode == "image") &&
            !sendBatches delivery (chunked imgs) 0 then
          (.raised "HTTPError: sendMediaGroup", stateFile)
        else
          (.sent, .dict (_mark_sent_today (_today_kst now) dedupe_key))

/-! ### Helper lemmas -/

lemma ws_false_of_isDigit (c : Char) (h : c.isDigit = true) : pyWS c = false := by
  simp [Char.isDigit] at h
  simp only [pyWS, Char.isWhitespace, Bool.or_eq_false_iff, decide_eq_false_iff_not]
  refine ⟨⟨⟨?_, ?_⟩, ?_⟩, ?_⟩ <;> (intro he; subst he; revert h; decide)

lemma ne_of_isDigit (c : Char) (d : Char) (hd : d.isDigit = false)
    (h : c.isDigit = true) : c ≠ d := by
  intro he; subst he; rw [h] at hd; exact Bool.noConfusion hd

lemma isPrefixOf_append_self (p rest : List Char) :
    p.isPrefixOf (p ++ rest) = true := by
  induction p with
  | nil => simp [List.isPrefixOf]
  | cons a t ih => simp [List.isPrefixOf, ih]

lemma containsSub_of_isPrefixOf (p l : List Char) (h : p.isPrefixOf l = true) :
    containsSub p l = true := by
  cases l with
  | nil =>
    cases p with
    | nil => rfl
    | cons a t => simp [List.isPrefixOf] at h
  | cons c cs => simp [containsSub, h]

lemma containsSub_append_left (p xs l : List Char)
    (h : containsSub p l = true) : containsSub p (xs ++ l) = true := by
  induction xs with
  | nil => simp only [List.nil_append]; exact h
  | cons a t ih => simp [containsSub, ih]

lemma containsSub_suffix (p xs : List Char) :
    containsSub p (xs ++ p) = true := by
  apply containsSub_append_left
  apply containsSub_of_isPrefixOf
  have h := isPrefixOf_append_self p []
  rw [List.append_nil] at h
  exact h

lemma containsSub_false_of_not_mem (c0 : Char) (cs l : List Char)
    (h : c0 ∉ l) : containsSub (c0 :: cs) l = false := by
  induction l with
  | nil => rfl
  | cons a t ih =>
    have hne : (c0 == a) = false := by
      simp only [beq_eq_false_iff_ne]
      intro he; exact h (he ▸ List.mem_cons_self a t)
    simp only [containsSub, List.isPrefixOf, hne, Bool.false_and, Bool.false_or]
    exact ih (fun hm => h (List.mem_cons_of_mem a hm))

lemma dropWhile_eq_self_of_head (l : List Char)
    (h : ∀ c, l.head? = some c → pyWS c = false) : l.dropWhile pyWS = l := by
  cases l with
  | nil => rfl
  | cons a t => simp [List.dropWhile, h a rfl]

lemma pyStripL_eq_self (l : List Char)
    (h1 : ∀ c, l.head? = some c → pyWS c = false)
    (h2 : ∀ c, l.getLast? = some c → pyWS c = false) : pyStripL l = l := by
  unfold pyStripL
  rw [dropWhile_eq_self_of_head l h1]
  rw [dropWhile_eq_self_of_head l.reverse (by simpa [List.head?_reverse] using h2)]
  exact List.reverse_reverse l

lemma dot_mem_of_matchesAbsDate (l : List Char)
    (h : matchesAbsDate l = true) : '.' ∈ l := by
  simp only [matchesAbsDate, Bool.and_eq_true, decide_eq_true_eq, beq_iff_eq] at h
  have h11 : 11 ≤ l.length := by tauto
  have hdot : l.getD 4 '*' = '.' := by tauto
  have h4 : 4 < l.length := by omega
  rw [List.getD_eq_getElem l '*' h4] at hdot
  exact hdot ▸ List.getElem_mem h4

lemma pyStripL_digits_append (ds suf : List Char) (hne : ds ≠ [])
    (hdig : ∀ c ∈ ds, c.isDigit = true) (hsuf : suf ≠ [])
    (hlast : ∀ c, suf.getLast? = some c → pyWS c = false) :
    pyStripL (ds ++ suf) = ds ++ suf := by
  apply pyStripL_eq_self
  · intro c hc
    cases ds with
    | nil => exact absurd rfl hne
    | cons d dt =>
      rw [List.cons_append, List.head?_cons, Option.some.injEq] at hc
      exact hc ▸ ws_false_of_isDigit d (hdig d (List.mem_cons_self d dt))
  · intro c hc
    rw [List.getLast?_append_of_ne_nil ds hsuf] at hc
    exact hlast c hc

/-- Claim C4 is false on the code: `_is_today_label` has no rule for
the literal word "오늘", and its "방금" rule is an equality test, not a
containment test, so the label "방금 전" (which contains the marker
"방금") is also classified as not-today. -/
theorem claim_C4_counterexample :
    _is_today_label (2026, 1, 2) "오늘" = false ∧
    _is_today_label (2026, 1, 2) "방금 전" = false := by decide

/-- Claim C4 (corrected): the classifier used by the card selector
returns true for every label whose stripped text contains "분 전" or
"시간 전" or is exactly "방금" (in particular for every "N분 전" and
"N시간 전" with a nonempty digit string N); it returns false for the
bare label "오늘" (the code has no 오늘 rule) and false for every
"N일 전" label (N a nonempty digit string). -/
theorem claim_C4_amended :
    (∀ (ref : Nat × Nat × Nat) (t : String),
      relativeMarker (pyStripL t.data) = true → _is_today_label ref t = true) ∧
    (∀ ref : Nat × Nat × Nat, _is_today_label ref "오늘" = false) ∧
    (∀ (ref : Nat × Nat × Nat) (ds : List Char), ds ≠ [] →
      (∀ c ∈ ds, c.isDigit = true) →
      _is_today_label ref ⟨ds ++ "분 전".data⟩ = true) ∧
    (∀ (ref : Nat × Nat × Nat) (ds : List Char), ds ≠ [] →
      (∀ c ∈ ds, c.isDigit = true) →
      _is_today_label ref ⟨ds ++ "시간 전".data⟩ = true) ∧
    (∀ (ref : Nat × Nat × Nat) (ds : List Char), ds ≠ [] →
      (∀ c ∈ ds, c.isDigit = true) →
      _is_today_label ref ⟨ds ++ "일 전".data⟩ = false) := by
  refine ⟨?_, ?_, ?_, ?_, ?_⟩
  · intro ref t h
    simp [_is_today_label, h]
  · intro ref
    have h1 : relativeMarker (pyStripL "오늘".data) = false := by decide
    have h2 : matchesAbsDate (pyStripL "오늘".data) = false := by decide
    simp [_is_today_label, h1, h2]
  · intro ref ds hne hdig
    have hstrip : pyStripL (ds ++ "분 전".data) = ds ++ "분 전".data :=
      pyStripL_digits_append ds _ hne hdig (by decide) (by decide)
    have hc : containsSub "분 전".data (ds ++ "분 전".data) = true :=
      containsSub_suffix _ ds
    have hm : relativeMarker (ds ++ "분 전".data) = true := by
      simp [relativeMarker, hc]
    simp [_is_today_label, hstrip, hm]
  · intro ref ds hne hdig
    have hstrip : pyStripL (ds ++ "시간 전".data) = ds ++ "시간 전".data :=
      pyStripL_digits_append ds _ hne hdig (by decide) (by decide)
    have hc : containsSub "시간 전".data (ds ++ "시간 전".data) = true :=
      containsSub_suffix _ ds
    have hm : relativeMarker (ds ++ "시간 전".data) = true := by
      simp [relativeMarker, hc]
    simp [_is_today_label, hstrip, hm]
  · intro ref ds hne hdig
    have hstrip : pyStripL (ds ++ "일 전".data) = ds ++ "일 전".data :=
      pyStripL_digits_append ds _ hne hdig (by decide) (by decide)
    have hnm1 : ('분' : Char) ∉ ds ++ "일 전".data := by
      intro hm
      rcases List.mem_append.mp hm with hm | hm
      · exact ne_of_isDigit '분' '분' (by decide) (hdig '분' hm) rfl
      · revert hm; decide
    have hnm2 : ('시' : Char) ∉ ds ++ "일 전".data := by
      intro hm
      rcases List.mem_append.mp hm with hm | hm
      · exact ne_of_isDigit '시' '시' (by decide) (hdig '시' hm) rfl
      · revert hm; decide
    have hc1 : containsSub "분 전".data (ds ++ "일 전".data) = false :=
      containsSub_false_of_not_mem _ _ _ hnm1
    have hc2 : containsSub "시간 전".data (ds ++ "일 전".data) = false :=
      containsSub_false_of_not_mem _ _ _ hnm2
    have hlen : 1 ≤ ds.length := List.length_pos.mpr hne
    have hbg : (ds ++ "일 전".data == "방금".data) = false := by
      simp only [beq_eq_false_iff_ne]
      intro he
      have hl := congrArg List.length he
      simp at hl
    have hm : relativeMarker (ds ++ "일 전".data) = false := by
      simp [relativeMarker, hc1, hc2, hbg]
    have hdotnm : ('.' : Char) ∉ ds ++ "일 전".data := by
      intro hmem
      rcases List.mem_append.mp hmem with hmem | hmem
      · exact ne_of_isDigit '.' '.' (by decide) (hdig '.' hmem) rfl
      · revert hmem; decide
    have habs : matchesAbsDate (ds ++ "일 전".data) = false := by
      cases habs : matchesAbsDate (ds ++ "일 전".data) with
      | false => rfl
      | true => exact absurd (dot_mem_of_matchesAbsDate _ habs) hdotnm
    simp [_is_today_label, hstrip, hm, habs]

/-- Witness for claim C4 (corrected) at the concrete label "3분 전". -/
theorem claim_C4_witness :
    _is_today_label (2026, 1, 2) ⟨['3'] ++ "분 전".data⟩ = true :=
  claim_C4_amended.2.2.1 (2026, 1, 2) ['3'] (by decide) (by decide)

/-- Claim C5: when no relative-recency rule fires and the stripped
label matches the absolute-date prefix pattern `YYYY.MM.DD.`, the
classifier returns true exactly when the parsed (year, month, day)
triple equals the reference calendar date; a label matching no rule,
in particular an empty or whitespace-only label, yields false; and
`"2026.01.02."` is classified today iff the reference date is
2026-01-02. -/
theorem claim_C5_absolute_date :
    (∀ (ref : Nat × Nat × Nat) (t : String),
      relativeMarker (pyStripL t.data) = false →
      matchesAbsDate (pyStripL t.data) = true →
      (_is_today_label ref t = true ↔ absTriple (pyStripL t.data) = ref)) ∧
    (∀ (ref : Nat × Nat × Nat) (t : String),
      relativeMarker (pyStripL t.data) = false →
      matchesAbsDate (pyStripL t.data) = false →
      _is_today_label ref t = false) ∧
    (∀ (ref : Nat × Nat × Nat) (t : String),
      pyStripL t.data = [] → _is_today_label ref t = false) ∧
    _is_today_label (2026, 1, 2) "2026.01.02." = true ∧
    _is_today_label (2026, 1, 3) "2026.01.02." = false := by
  refine ⟨?_, ?_, ?_, by decide, by decide⟩
  · intro ref t h1 h2
    simp [_is_today_label, h1, h2]
  · intro ref t h1 h2
    simp [_is_today_label, h1, h2]
  · intro ref t h
    have h1 : relativeMarker ([] : List Char) = false := by decide
    have h2 : matchesAbsDate ([] : List Char) = false := by decide
    simp [_is_today_label, h, h1, h2]

/-- Witness for claim C5 at the concrete label "2026.01.02." and
reference date 2026-01-02. -/
theorem claim_C5_witness :
    _is_today_label (2026, 1, 2) "2026.01.02." = true :=
  (claim_C5_absolute_date.1 (2026, 1, 2) "2026.01.02." (by decide)
    (by decide)).mpr (by decide)

/-! ### Claim C1: the card selector -/

/-- The links, in encounter order, of the linked cards whose date label
classifies as today. -/
def todayBucket (ref : Nat × Nat × Nat) (base : String)
    (cards : List Card) : List String :=
  cards.filterMap (fun c =>
    match c.href with
    | some h =>
      if _is_today_label ref (cardDateText c) then some (urljoin base h)
      else none
    | none => none)

/-- The links, in encounter order, of the linked cards carrying the pin
marker. -/
def pinnedBucket (base : String) (cards : List Card) : List String :=
  cards.filterMap (fun c =>
    match c.href with
    | some h => if cardPinned c then some (urljoin base h) else none
    | none => none)

/-- The links of every card with a resolvable link, in encounter
order. -/
def anyBucket (base : String) (cards : List Card) : List String :=
  cards.filterMap (fun c => c.href.map (urljoin base))

lemma collectBuckets_eq (ref : Nat × Nat × Nat) (base : String)
    (cards : List Card) :
    collectBuckets ref base cards =
      (todayBucket ref base cards, pinnedBucket base cards,
       anyBucket base cards) := by
  induction cards with
  | nil => rfl
  | cons c rest ih =>
    cases hh : c.href with
    | none =>
      simp [collectBuckets, todayBucket, pinnedBucket, anyBucket,
        List.filterMap_cons, hh, ih]
    | some href =>
      by_cases ht : _is_today_label ref (cardDateText c) = true <;>
      by_cases hp : cardPinned c = true <;>
      simp [collectBuckets, todayBucket, pinnedBucket, anyBucket,
        List.filterMap_cons, hh, ht, hp, ih]

/-- Claim C1: `pick_best_post_link` partitions the linked cards in one
pass into the (non-exclusive) today/pinned/any buckets in encounter
order and returns the first element of the first non-empty bucket in
the priority order today > pinned > any, with the reasons `"today"`,
`"pinned"`, `"latest"`, and `(none, "none")` when no card has a
resolvable link; a card without a resolvable link lands in no bucket
and never influences the outcome. -/
theorem claim_C1_selector :
    (∀ (ref : Nat × Nat × Nat) (base : String) (cards : List Card),
      pick_best_post_link ref base cards =
        match todayBucket ref base cards, pinnedBucket base cards,
            anyBucket base cards with
        | l :: _, _, _ => (some l, "today")
        | [], l :: _, _ => (some l, "pinned")
        | [], [], l :: _ => (some l, "latest")
        | [], [], [] => (none, "none")) ∧
    (∀ (ref : Nat × Nat × Nat) (base : String) (c : Card)
      (cards : List Card), c.href = none →
      pick_best_post_link ref base (c :: cards) =
        pick_best_post_link ref base cards) := by
  constructor
  · intro ref base cards
    unfold pick_best_post_link
    rw [collectBuckets_eq]
    rcases todayBucket ref base cards with _ | ⟨l, t⟩ <;>
    rcases pinnedBucket base cards with _ | ⟨l2, t2⟩ <;>
    rcases anyBucket base cards with _ | ⟨l3, t3⟩ <;> rfl
  · intro ref base c cards hh
    unfold pick_best_post_link
    have hcb : collectBuckets ref base (c :: cards) =
        collectBuckets ref base cards := by
      simp [collectBuckets, hh]
    rw [hcb]

/-- Witness for claim C1: a linkless card does not change the
selection. -/
theorem claim_C1_witness :
    pick_best_post_link (2026, 1, 2) "https://pf.kakao.com"
        [⟨none, some "방금", some "고정"⟩, ⟨some "/p/9", none, none⟩] =
      pick_best_post_link (2026, 1, 2) "https://pf.kakao.com"
        [⟨some "/p/9", none, none⟩] :=
  claim_C1_selector.2 (2026, 1, 2) "https://pf.kakao.com"
    ⟨none, some "방금", some "고정"⟩ [⟨some "/p/9", none, none⟩] rfl

/-! ### Claim C2: the dedup read -/

/-- Claim C2 is false on the code in one corner: a persisted state
file whose content is valid JSON but not a JSON object (for example
the file content `[1]` or `3` or `null`) is read and parsed by
`_load_state` without error, but the subsequent `.get` calls in
`_already_sent_today` raise an uncaught `AttributeError` — the read
failure IS fatal to the run instead of permissively allowing the
send. -/
theorem claim_C2_counterexample :
    _already_sent_today StateFile.nonDict "2026-01-02" "url:x" =
      Except.error attrErrMsg ∧
    _already_sent_today StateFile.nonDict "2026-01-02" "url:x" ≠
      Except.ok false ∧
    _already_sent_today StateFile.nonDict "2026-01-02" "url:x" ≠
      Except.ok true := by
  refine ⟨rfl, by simp [_already_sent_today, _load_state],
    by simp [_already_sent_today, _load_state]⟩

/-- Claim C2 (corrected): the gate reports "already sent" (so that
sending is suppressed) exactly when the persisted state parses to a
JSON object whose `"date"` entry equals today and whose
`"dedupe_key"` entry equals the given key; a missing file or content
that `json.loads` rejects reads as the empty object and permissively
allows sending (non-fatal); but a state file parsing to a non-object
JSON value raises an uncaught `AttributeError`, which is fatal to the
run. -/
theorem claim_C2_amended :
    ∀ (f : StateFile) (today key : String),
      (∀ st : StoredState, f = StateFile.dict st →
        (_already_sent_today f today key = .ok true ↔
          st.date = some today ∧ st.dedupe_key = some key)) ∧
      ((f = StateFile.absent ∨ f = StateFile.malformed) →
        _already_sent_today f today key = .ok false) ∧
      (f = StateFile.nonDict →
        _already_sent_today f today key = .error attrErrMsg) := by
  intro f today key
  refine ⟨?_, ?_, ?_⟩
  · intro st hf
    subst hf
    simp [_already_sent_today, _load_state]
  · rintro (hf | hf) <;> subst hf <;> rfl
  · intro hf; subst hf; rfl

/-- Witness for claim C2 (corrected): a missing state file allows
sending. -/
theorem claim_C2_witness :
    _already_sent_today StateFile.absent "2026-01-02" "url:x" =
      Except.ok false :=
  (claim_C2_amended StateFile.absent "2026-01-02" "url:x").2.1 (Or.inl rfl)

/-! ### Claim C6: dedup idempotence and rollover -/

/-- Claim C6: after `_mark_sent_today` replaces the persisted state
with `{date: today, dedupe_key: key}` (an unconditional replace), a
second check on the same day with the same key reports "already sent"
(no resend), while a check on a different day reports "not sent"
(date rollover re-enables sending). -/
theorem claim_C6_idempotence_rollover :
    ∀ today key day2 : String,
      _already_sent_today (.dict (_mark_sent_today today key)) today key =
        .ok true ∧
      (day2 ≠ today →
        _already_sent_today (.dict (_mark_sent_today today key)) day2 key =
          .ok false) ∧
      _mark_sent_today today key = ⟨some today, some key⟩ := by
  intro today key day2
  refine ⟨?_, ?_, rfl⟩
  · simp [_already_sent_today, _load_state, _mark_sent_today]
  · intro hne
    simp only [_already_sent_today, _load_state, _mark_sent_today,
      Except.ok.injEq, Bool.and_eq_true, beq_iff_eq, Option.some.injEq]
    simp only [Bool.and_eq_false_iff]
    simp
    intro h
    exact hne h.symm

/-- Witness for claim C6 at concrete dates and key. -/
theorem claim_C6_witness :
    _already_sent_today
        (.dict (_mark_sent_today "2026-01-02" "url:x")) "2026-01-03" "url:x" =
      Except.ok false :=
  (claim_C6_idempotence_rollover "2026-01-02" "url:x" "2026-01-03").2.1
    (by decide)

/-! ### Claim C7: the dedupe key -/

/-- Claim C7 is false on the code in one corner: with title `"T"`,
empty text and no URL, the source hashes
`("T".strip() + "\n" + "".strip()).strip() = "T"`, not
`title + "\n" + text = "T\n"` as the claim states, and the two
SHA-256 digests differ in their first 16 hex characters
(`e632b7095b0bf32c` vs `678f81a714fbc720`). -/
theorem claim_C7_counterexample :
    _make_dedupe_key ⟨"", "T", "", [], []⟩ ≠
      "hash:" ++ ⟨(sha256hex ("T" ++ "\n" ++ "")).data.take 16⟩ ∧
    _make_dedupe_key ⟨"", "T", "", [], []⟩ =
      "hash:" ++ ⟨(sha256hex "T").data.take 16⟩ := by
  refine ⟨by decide, by decide⟩

/-- Claim C7 (corrected): the dedupe key is `url:` followed by the
STRIPPED URL whenever the stripped URL is non-empty (identical URLs
always yield identical keys regardless of title and text); otherwise
it is `hash:` followed by exactly the first 16 hex characters of
SHA-256 of `strip(strip(title) + "\n" + strip(text))` — which equals
SHA-256 of `title + "\n" + text` for pre-stripped title and non-empty
pre-stripped text — and the derivation is deterministic: the same
(title, text) pair with no URL always yields the same hash key. -/
theorem claim_C7_amended :
    ∀ r : ScrapeResult,
      (pyStrip r.url ≠ "" →
        _make_dedupe_key r = "url:" ++ pyStrip r.url) ∧
      (pyStrip r.url = "" →
        _make_dedupe_key r =
          "hash:" ++
            ⟨(sha256hex (pyStrip (pyStrip r.title ++ "\n" ++
              pyStrip r.text))).data.take 16⟩) ∧
      (∀ r' : ScrapeResult, r.url = r'.url → pyStrip r.url ≠ "" →
        _make_dedupe_key r = _make_dedupe_key r') ∧
      (∀ r' : ScrapeResult, r.url = r'.url → r.title = r'.title →
        r.text = r'.text → _make_dedupe_key r = _make_dedupe_key r') := by
  intro r
  refine ⟨?_, ?_, ?_, ?_⟩
  · intro h
    simp [_make_dedupe_key, h]
  · intro h
    simp [_make_dedupe_key, h]
  · intro r' hu h
    have hu' : pyStrip r'.url ≠ "" := hu ▸ h
    simp [_make_dedupe_key, h, hu', hu]
  · intro r' hu ht hx
    simp [_make_dedupe_key, hu, ht, hx]

/-- Witness for claim C7 (corrected): a post with a URL gets the
url-tagged key. -/
theorem claim_C7_witness :
    _make_dedupe_key ⟨"https://pf.kakao.com/_x/1", "T", "B", [], []⟩ =
      "url:" ++ pyStrip "https://pf.kakao.com/_x/1" :=
  (claim_C7_amended ⟨"https://pf.kakao.com/_x/1", "T", "B", [], []⟩).1
    (by decide)

/-! ### Claim C8: the message composer -/

/-- Claim C8: `build_message` is a pure function of the post record
producing the marker-decorated title line, then a blank line and the
body text when the stripped text is non-empty, then a blank line and
the marker-decorated URL when the stripped URL is non-empty, omitting
the empty sections; on title "T", empty text and URL ".../p/1" it
yields exactly the two-section message. -/
theorem claim_C8_composer :
    (∀ r : ScrapeResult,
      build_message r =
        pyStrip ("📌 " ++ pyStrip r.title) ++
        (if pyStrip r.text ≠ "" then "\n\n" ++ pyStrip r.text else "") ++
        (if pyStrip r.url ≠ "" then "\n\n🔗 " ++ pyStrip r.url else "")) ∧
    build_message ⟨".../p/1", "T", "", [], []⟩ = "📌 T\n\n🔗 .../p/1" := by
  constructor
  · intro r
    unfold build_message
    by_cases htext : pyStrip r.text = "" <;>
    by_cases hurl : pyStrip r.url = "" <;>
    simp only [htext, hurl, if_pos, if_neg, ne_eq, not_true_eq_false,
      not_false_eq_true, if_true, if_false, ite_true, ite_false] <;>
    apply String.ext <;>
    simp [String.data_append]
  · decide



/-! ### Claim C3: selection failure is not a skip -/

/-- Claim C3 is false on the code: when the card selector finds no
usable link (reason "none"), `scrape_today_post` raises a
`RuntimeError` that `main_async` does not catch, so the run ends as an
uncaught exception (a run failure), not as a skip outcome; the
persisted state is indeed left unchanged.  Shown on a concrete run
before the time cutoff with an empty card list. -/
theorem claim_C3_counterexample :
    main_async ⟨2026, 1, 2, 9, 0⟩ none [] (fun _ => ⟨"", "", []⟩)
        (fun _ => []) ⟨true, fun _ => true⟩ StateFile.absent =
      (RunOutcome.raised scrapeErrMsg, StateFile.absent) ∧
    RunOutcome.raised scrapeErrMsg ≠ RunOutcome.lateSkip ∧
    RunOutcome.raised scrapeErrMsg ≠ RunOutcome.dedupSkip ∧
    RunOutcome.raised scrapeErrMsg ≠ RunOutcome.sent := by
  refine ⟨rfl, by decide, by decide, by decide⟩

/-- Claim C3 (corrected): when the run is not stopped by the time
cutoff and the card selector returns no link (reason "none"),
`main_async` ends with the uncaught `RuntimeError` of the scraper — a
run failure, not a non-fatal skip — and the persisted DedupState is
not mutated. -/
theorem claim_C3_amended :
    ∀ (now : NowKST) (envMode : Option String) (cards : List Card)
      (extract : String → DetailData) (download : List String → List String)
      (delivery : Delivery) (f : StateFile),
      ¬(11 < now.hour ∨ (now.hour = 11 ∧ 45 ≤ now.minute)) →
      (pick_best_post_link (now.year, now.month, now.day)
        "https://pf.kakao.com" cards).1 = none →
      main_async now envMode cards extract download delivery f =
        (RunOutcome.raised scrapeErrMsg, f) := by
  intro now envMode cards extract download delivery f hlate hpick
  have hscrape : scrape_today_post (now.year, now.month, now.day) cards
      extract download = .error scrapeErrMsg := by
    unfold scrape_today_post
    rcases hp : pick_best_post_link (now.year, now.month, now.day)
        "https://pf.kakao.com" cards with ⟨l, reason⟩
    rw [hp] at hpick
    simp at hpick
    subst hpick
    simp [hp]
  simp only [main_async]
  rw [if_neg hlate]
  simp only [hscrape]

/-- Witness for claim C3 (corrected) on a concrete early run whose
feed has only a linkless card. -/
theorem claim_C3_witness :
    main_async ⟨2026, 1, 2, 9, 0⟩ none [⟨none, some "방금", none⟩]
        (fun _ => ⟨"", "", []⟩) (fun _ => []) ⟨true, fun _ => true⟩
        StateFile.malformed =
      (RunOutcome.raised scrapeErrMsg, StateFile.malformed) :=
  claim_C3_amended ⟨2026, 1, 2, 9, 0⟩ none [⟨none, some "방금", none⟩]
    (fun _ => ⟨"", "", []⟩) (fun _ => []) ⟨true, fun _ => true⟩
    StateFile.malformed (by decide) (by decide)

/-! ### Claim C9: state is written only after delivery succeeds -/

/-- Claim C9: the persisted DedupState is written only by a run that
reaches the final mark step: any run that does not end in `sent`
leaves the state file exactly as it was; in particular if the text
send fails (when the mode sends text) or any photo batch fails (when
the mode sends images), the run aborts with the delivery exception and
the state is unchanged, so the next run will retry. -/
theorem claim_C9_mark_after_send :
    ∀ (now : NowKST) (envMode : Option String) (cards : List Card)
      (extract : String → DetailData) (download : List String → List String)
      (delivery : Delivery) (f : StateFile),
      ((main_async now envMode cards extract download delivery f).1 ≠
          RunOutcome.sent →
        (main_async now envMode cards extract download delivery f).2 = f) ∧
      ((pyLower (pyStrip (envMode.getD "full")) == "full" ||
          pyLower (pyStrip (envMode.getD "full")) == "text") = true →
        delivery.textOk = false →
        (main_async now envMode cards extract download delivery f).1 ≠
            RunOutcome.sent ∧
          (main_async now envMode cards extract download delivery f).2 = f) ∧
      (∀ res : ScrapeResult,
        scrape_today_post (now.year, now.month, now.day) cards extract
            download = .ok res →
        (pyLower (pyStrip (envMode.getD "full")) == "full" ||
          pyLower (pyStrip (envMode.getD "full")) == "image") = true →
        sendBatches delivery (chunked res.downloaded) 0 = false →
        (main_async now envMode cards extract download delivery f).1 ≠
            RunOutcome.sent ∧
          (main_async now envMode cards extract download delivery f).2 = f) := by
  intro now envMode cards extract download delivery f
  have hstate : (main_async now envMode cards extract download delivery f).1 ≠
      RunOutcome.sent →
      (main_async now envMode cards extract download delivery f).2 = f := by
    simp only [main_async]
    repeat' split
    all_goals intro h
    all_goals try rfl
    all_goals exact absurd rfl h
  refine ⟨hstate, ?_, ?_⟩
  · intro hmode htext
    have hne : (main_async now envMode cards extract download delivery f).1 ≠
        RunOutcome.sent := by
      simp only [main_async]
      repeat' split
      all_goals simp_all
    exact ⟨hne, hstate hne⟩
  · intro res hscrape hmode hmedia
    have hne : (main_async now envMode cards extract download delivery f).1 ≠
        RunOutcome.sent := by
      simp only [main_async]
      simp only [hscrape]
      repeat' split
      all_goals simp_all
    exact ⟨hne, hstate hne⟩

/-- Witness for claim C9: a concrete run in text mode whose text send
fails leaves the state file untouched and does not end in `sent`. -/
theorem claim_C9_witness :
    (main_async ⟨2026, 1, 2, 9, 0⟩ (some "text")
          [⟨some "/p/1", some "방금", none⟩] (fun _ => ⟨"T", "", []⟩)
          (fun _ => []) ⟨false, fun _ => true⟩ StateFile.absent).1 ≠
        RunOutcome.sent ∧
      (main_async ⟨2026, 1, 2, 9, 0⟩ (some "text")
          [⟨some "/p/1", some "방금", none⟩] (fun _ => ⟨"T", "", []⟩)
          (fun _ => []) ⟨false, fun _ => true⟩ StateFile.absent).2 =
        StateFile.absent :=
  (claim_C9_mark_after_send ⟨2026, 1, 2, 9, 0⟩ (some "text")
      [⟨some "/p/1", some "방금", none⟩] (fun _ => ⟨"T", "", []⟩)
      (fun _ => []) ⟨false, fun _ => true⟩ StateFile.absent).2.1
    (by decide) rfl

/-! ### Claim C10: the 11:45 KST cutoff -/

/-- Claim C10: a run whose KST start time is 11:45 or later (Python
tuple comparison `(now.hour, now.minute) >= (11, 45)`) returns
immediately with the late skip, for every feed, every oracle and every
prior state: nothing is scraped, nothing is delivered, and the
persisted DedupState is unchanged. -/
theorem claim_C10_time_cutoff :
    ∀ (now : NowKST) (envMode : Option String) (cards : List Card)
      (extract : String → DetailData) (download : List String → List String)
      (delivery : Delivery) (f : StateFile),
      (11 < now.hour ∨ (now.hour = 11 ∧ 45 ≤ now.minute)) →
      main_async now envMode cards extract download delivery f =
        (RunOutcome.lateSkip, f) := by
  intro now envMode cards extract download delivery f h
  simp only [main_async]
  rw [if_pos h]

/-- Witness for claim C10 at 11:45 KST exactly. -/
theorem claim_C10_witness :
    main_async ⟨2026, 1, 2, 11, 45⟩ none [⟨some "/p/1", some "방금", none⟩]
        (fun _ => ⟨"T", "", []⟩) (fun _ => []) ⟨true, fun _ => true⟩
        StateFile.absent =
      (RunOutcome.lateSkip, StateFile.absent) :=
  claim_C10_time_cutoff ⟨2026, 1, 2, 11, 45⟩ none
    [⟨some "/p/1", some "방금", none⟩] (fun _ => ⟨"T", "", []⟩)
    (fun _ => []) ⟨true, fun _ => true⟩ StateFile.absent
    (Or.inr ⟨rfl, le_refl 45⟩)
